import Mathlib

/-!
Verification of the digital wellness journal (`digital_weelness.py`).

The development shallowly embeds the score engine, the wellness log store and
the query layer of the source file.  Calendar dates are modelled as integer day
numbers (`Option ℤ`, with `none` standing for pandas `NaT`, a row whose date
failed to parse); real-valued fields are modelled as rationals; the current
day (`datetime.now()`) is passed explicitly.  Failure injection flags model
the file-lock timeout and I/O exceptions of `save_entry`.
-/

namespace DigitalWellness

/-- Model of Python `str.lower`: lowercase every character. -/
def lowerStr (s : String) : String := ⟨ s.data.map Char.toLower ⟩

/-- Model of Python `str.strip`: drop leading and trailing whitespace. -/
def stripStr (s : String) : String :=
  ⟨ ((s.data.dropWhile Char.isWhitespace).reverse.dropWhile Char.isWhitespace).reverse ⟩

/-- One row of the wellness store after loading (the nine CSV columns).
`date = none` models pandas `NaT`, the result of an unparseable date. -/
structure Entry where
  username : String
  date : Option ℤ
  sleep_hours : ℚ
  screen_time : ℚ
  stress_level : ℤ
  mood : String
  wellness_score : ℤ
  tip : String
  journal : String
deriving DecidableEq, Repr

/-- `SCORE_MIN` from the source configuration. -/
def SCORE_MIN : ℚ := 0

/-- `SCORE_MAX` from the source configuration. -/
def SCORE_MAX : ℚ := 100

/-- `np.clip(x, lo, hi)`: clip `x` into `[lo, hi]`. -/
def npClip (x lo hi : ℚ) : ℚ := min (max x lo) hi

/-- Python `int(...)` on a real value: truncation toward zero. -/
def intTrunc (q : ℚ) : ℤ := if 0 ≤ q then ⌊q⌋ else ⌈q⌉

/-- `compute_wellness_score` (source lines 90-94). -/
def compute_wellness_score (sleep screen stress : ℚ) : ℤ :=
  let sleep_score := npClip (sleep / 8 * 40) 0 40
  let stress_score := npClip ((10 - stress) / 10 * 30) 0 30
  let screen_score := if screen ≤ 3 then (30 : ℚ) else max 0 (30 - (screen - 3) * (30 / 9))
  intTrunc (npClip (sleep_score + stress_score + screen_score) SCORE_MIN SCORE_MAX)

/-- `clamp(x, lo, hi)` as the specification words it. -/
def clamp (x lo hi : ℚ) : ℚ := max lo (min x hi)

/-- The score formula exactly as the specification states it (spec section 4.1):
sleep `clamp(sleepHours/8 * 40, 0, 40)`, stress `clamp((10-stressLevel)/10 * 30, 0, 30)`,
screen `30` if `screenTime <= 3` else `max(0, 30 - (screenTime-3) * 30/9)`,
then integer truncation of the sum clamped to `[0, 100]`. -/
def computeScoreSpec (sleepHours screenTime stressLevel : ℚ) : ℤ :=
  let sleepC := clamp (sleepHours / 8 * 40) 0 40
  let stressC := clamp ((10 - stressLevel) / 10 * 30) 0 30
  let screenC := if screenTime ≤ 3 then (30 : ℚ) else max 0 (30 - (screenTime - 3) * 30 / 9)
  intTrunc (clamp (sleepC + stressC + screenC) 0 100)

/-- Advice fragment gated by `sleep < 6`. -/
def sleepTipText : String := "🛌 Try sleeping 7–8 hours. "

/-- Advice fragment gated by `screen > 8`. -/
def screenTipText : String := "📱 Too much screen time! Reduce it. "

/-- Advice fragment gated by `stress >= 7`. -/
def stressTipText : String := "😣 High stress! Try breathing exercises. "

/-- Advice fragment gated by the lowercased mood being tired or exhausted. -/
def napTipText : String := "💤 Take a power nap. "

/-- `generate_tip` (source lines 96-106). -/
def generate_tip (sleep screen stress : ℚ) (mood : String) : String :=
  let mood_text := lowerStr mood
  let tip : String := ""
  let tip := if sleep < 6 then tip ++ sleepTipText else tip
  let tip := if screen > 8 then tip ++ screenTipText else tip
  let tip := if stress ≥ 7 then tip ++ stressTipText else tip
  let tip := if mood_text ∈ [ "tired", "exhausted" ] then tip ++ napTipText else tip
  stripStr tip

/-- The dedup key of a row: the `(username, date)` pair. -/
def entryKey (e : Entry) : String × Option ℤ := (e.username, e.date)

/-- `DataFrame.drop_duplicates` on `(username, date)` keeping the last row with
each key (source line 57).  A row is kept iff no later row has the same key;
pandas treats two `NaT` dates as the same key here. -/
def drop_duplicates_keep_last : List Entry → List Entry
  | [] => []
  | r :: rest =>
    if (drop_duplicates_keep_last rest).any (fun x => decide (entryKey x = entryKey r)) then
      drop_duplicates_keep_last rest
    else r :: drop_duplicates_keep_last rest

/-- A raw CSV row after the pandas field-parsing stage of `load_data`:
`none` marks an unparseable field (`NaT` from `pd.to_datetime(errors=coerce)`
on the date, `NaN` from `pd.to_numeric(errors=coerce)` on a numeric column). -/
structure RawRow where
  username : String
  date : Option ℤ
  sleep_hours : Option ℚ
  screen_time : Option ℚ
  stress_level : Option ℚ
  mood : String
  wellness_score : Option ℚ
  tip : String
  journal : String
deriving DecidableEq, Repr

/-- Field normalization of `load_data` (source lines 42-55): unparseable
numerics become 0 (`fillna(0)`), and the integer columns are truncated
(`astype(int)`); an unparseable date stays `NaT`. -/
def parse_row (r : RawRow) : Entry :=
  { username := r.username
    date := r.date
    sleep_hours := r.sleep_hours.getD 0
    screen_time := r.screen_time.getD 0
    stress_level := intTrunc (r.stress_level.getD 0)
    mood := r.mood
    wellness_score := intTrunc (r.wellness_score.getD 0)
    tip := r.tip
    journal := r.journal }

/-- Outcome of reading and column-checking the backing CSV in `load_data`.
`ok rows` is a readable file that has all four numeric columns
(`sleep_hours`, `screen_time`, `stress_level`, `wellness_score`);
`missingNumericColumn` is a file that `pd.read_csv` reads but that lacks at
least one of those columns — lines 47-49 guard the coercion with
`if col in df.columns`, but lines 51-54 then access the columns
unconditionally; `unreadable` is a `pd.read_csv` failure (caught at lines
35-40).  A missing `date` column is handled at line 45 and a missing
`username` column at line 55, so those cases stay inside `ok`. -/
inductive ReadOutcome where
  | ok (rows : List RawRow)
  | missingNumericColumn
  | unreadable
deriving Repr

/-- Result of running `load_data`: a returned store, or an exception that
escapes the function. -/
inductive LoadResult where
  | store (entries : List Entry)
  | raised
deriving DecidableEq, Repr

/-- `load_data` (source lines 31-57): an unreadable file yields the empty
store (the `except` branch, with the nine-field `Entry` shape); a readable
file with all numeric columns has its rows parsed and deduplicated by
`(username, date)` keeping the last occurrence; a readable file lacking one
of the four numeric columns hits the unguarded accesses at lines 51-54 and
the `KeyError` escapes `load_data` (the `try` covers only `pd.read_csv`). -/
def load_data : ReadOutcome → LoadResult
  | .unreadable => .store []
  | .missingNumericColumn => .raised
  | .ok rows => .store (drop_duplicates_keep_last (rows.map parse_row))

/-- A user-facing message emitted through `st.warning` / `st.error`. -/
inductive UiMsg where
  | warning (text : String)
  | error (text : String)
deriving DecidableEq, Repr

/-- Duplicate-entry warning shown by `save_entry` (source line 69). -/
def conflictText : String := "You have already submitted an entry for this date."

/-- Error message shown by the `except` branch of `save_entry` (source line 87). -/
def saveErrorText : String := "An error occurred while saving. Please try again."

/-- A new check-in as built by the submission form (source lines 201-211):
its date is a concrete calendar day (`pd.Timestamp(date_input)`), never `NaT`. -/
structure Checkin where
  username : String
  date : ℤ
  sleep_hours : ℚ
  screen_time : ℚ
  stress_level : ℤ
  mood : String
  wellness_score : ℤ
  tip : String
  journal : String
deriving DecidableEq, Repr

/-- The stored row of a submitted check-in (date normalized to a pure
calendar date, source line 73). -/
def Checkin.toEntry (c : Checkin) : Entry :=
  { username := c.username
    date := some c.date
    sleep_hours := c.sleep_hours
    screen_time := c.screen_time
    stress_level := c.stress_level
    mood := c.mood
    wellness_score := c.wellness_score
    tip := c.tip
    journal := c.journal }

/-- The duplicate-key test of `save_entry` (source lines 66-67): some row has
the same username and the same calendar date.  A stored `NaT` date matches
nothing (pandas `NaT == d` is false). -/
def hasDuplicateKey (store : List Entry) (c : Checkin) : Bool :=
  store.any (fun r => decide (r.username = c.username) && decide (r.date = some c.date))

/-- The durable backing file as left by `save_entry`: either a parseable
store, or some other (truncated or partial) content.  `to_csv` opens the
target file with truncation before writing, so a failure during the write
does not preserve the previous file content. -/
inductive StoreState where
  | intact (entries : List Entry)
  | corrupted
deriving DecidableEq, Repr

/-- `save_entry` (source lines 59-88), returning the returned boolean, the
resulting backing-file state and the emitted messages.  `lockFail` injects a
`FileLock` timeout (nothing is read or written), `persistFail` an exception
from `to_csv`; both land in the `except` branch, which shows the error
message and returns `False`.  Because `to_csv` truncates the target file on
open, a failing persist leaves the file in an unknown state: the model takes
that state as the caller-chosen `failState` and guarantees nothing about it.
A duplicate key shows the warning and returns `False` without writing. -/
def save_entry (lockFail persistFail : Bool) (failState : StoreState)
    (store : List Entry) (c : Checkin) : Bool × StoreState × List UiMsg :=
  if lockFail then (false, .intact store, [ UiMsg.error saveErrorText ])
  else if hasDuplicateKey store c then (false, .intact store, [ UiMsg.warning conflictText ])
  else if persistFail then (false, failState, [ UiMsg.error saveErrorText ])
  else (true, .intact (store ++ [ c.toEntry ]), [])

/-- The entry built by the check-in form on submit (source lines 198-212):
the wellness score and the tip are computed by the score engine from the
three numeric inputs before `save_entry` is called. -/
def checkin_entry (username : String) (day : ℤ) (sleep screen : ℚ) (stress : ℤ)
    (mood journal : String) : Checkin :=
  { username := username
    date := day
    sleep_hours := sleep
    screen_time := screen
    stress_level := stress
    mood := mood
    wellness_score := compute_wellness_score sleep screen (stress : ℚ)
    tip := generate_tip sleep screen (stress : ℚ) mood
    journal := journal }

/-- Insert `e` after every element `x` with `lt x e` (stable insertion). -/
def insertSorted (lt : α → α → Bool) (e : α) : List α → List α
  | [] => [e]
  | x :: xs => if lt x e then x :: insertSorted lt e xs else e :: x :: xs

/-- Stable insertion sort; models pandas `sort_values`. -/
def sortBy (lt : α → α → Bool) : List α → List α
  | [] => []
  | x :: xs => insertSorted lt x (sortBy lt xs)

/-- The order produced by sorting with the strict comparison `lt`. -/
def ltRel (lt : α → α → Bool) (a b : α) : Prop := lt b a = false

/-- Ascending comparison on the `date_only` column (rows compared here always
carry a real date; `none` is given day 0). -/
def dateLt (a b : Entry) : Bool := decide (a.date.getD 0 < b.date.getD 0)

/-- The user-restriction step of `get_last_n_days` (source line 119): the
filter applies only when `username` is truthy, so `none` (Python `None`) and
`some ""` (the empty string) leave the store unfiltered. -/
def userRows (store : List Entry) (username : Option String) : List Entry :=
  match username with
  | none => store
  | some u => if u = "" then store else store.filter (fun e => decide (e.username = u))

/-- The date filter of `get_last_n_days` (source line 124): keep rows whose
date is on or after `today - (n-1)`; a `NaT` date never passes.  There is no
upper bound, so dates after `today` pass. -/
def windowRows (store : List Entry) (n : ℕ) (username : Option String) (today : ℤ) :
    List Entry :=
  (userRows store username).filter (fun e =>
    match e.date with
    | none => false
    | some d => decide (today - ((n : ℤ) - 1) ≤ d))

/-- `get_last_n_days` (source lines 118-124): restrict, filter by the window
start, sort ascending by date, keep the last `n` rows (`DataFrame.tail`). -/
def get_last_n_days (store : List Entry) (n : ℕ) (username : Option String) (today : ℤ) :
    List Entry :=
  let sorted := sortBy dateLt (windowRows store n username today)
  sorted.drop (sorted.length - n)

/-- The leaderboard window (source lines 265-273). -/
inductive Window where
  | Daily
  | Weekly
deriving DecidableEq, Repr

/-- Date-in-window test of the leaderboard (source lines 268-273): `Daily`
keeps rows dated exactly `today`, `Weekly` keeps dates in
`[today - 6, today]`; `NaT` dates match neither. -/
def inWindow (w : Window) (today : ℤ) (e : Entry) : Bool :=
  match e.date with
  | none => false
  | some d =>
    match w with
    | .Daily => decide (d = today)
    | .Weekly => decide (today - 6 ≤ d) && decide (d ≤ today)

/-- Lexicographic comparison of character lists. -/
def strLtAux : List Char → List Char → Bool
  | [], [] => false
  | [], _ :: _ => true
  | _ :: _, [] => false
  | x :: xs, y :: ys => if x < y then true else if y < x then false else strLtAux xs ys

/-- String comparison used for `groupby` key ordering. -/
def strLt (a b : String) : Bool := strLtAux a.data b.data

/-- Mean wellness score of user `u` over `rows`
(`groupby("username")["wellness_score"].mean()`). -/
def meanScore (rows : List Entry) (u : String) : ℚ :=
  let scores := (rows.filter (fun e => decide (e.username = u))).map
    (fun e => (e.wellness_score : ℚ))
  scores.sum / (scores.length : ℚ)

/-- `groupby("username", as_index=False)["wellness_score"].mean()` (source
lines 270/274): one `(username, mean score)` row per distinct username, with
usernames in sorted order (pandas `groupby` sorts its keys). -/
def groupMeans (rows : List Entry) : List (String × ℚ) :=
  (sortBy strLt ((rows.map (fun e => e.username)).dedup)).map (fun u => (u, meanScore rows u))

/-- Descending comparison on the mean score
(`sort_values("wellness_score", ascending=False)`). -/
def scoreDesc (a b : String × ℚ) : Bool := decide (b.2 < a.2)

/-- The leaderboard rows after grouping, averaging and sorting descending by
mean score (source lines 268-279). -/
def leaderboardScored (store : List Entry) (w : Window) (today : ℤ) : List (String × ℚ) :=
  sortBy scoreDesc (groupMeans (store.filter (inWindow w today)))

/-- The full leaderboard (source lines 263-281): each row with its rank
`index + 1` attached, as `(username, mean score, rank)`. -/
def leaderboard (store : List Entry) (w : Window) (today : ℤ) : List (String × ℚ × ℕ) :=
  (leaderboardScored store w today).enum.map (fun ip => (ip.2.1, ip.2.2, ip.1 + 1))

/-- A stored entry for alice on day 20000 (concrete test data). -/
def entryC1 : Entry := ⟨ "alice", some 20000, 8, 3, 2, "Happy", 95, "", "" ⟩

/-- A second check-in by alice for day 20000, with different fields. -/
def checkinC1 : Checkin := ⟨ "alice", 20000, 7, 4, 5, "Sad", 80, "", "note" ⟩

/-- A raw row for alice on day 10 (concrete test data). -/
def rawC4a : RawRow := ⟨ "alice", some 10, some 8, some 3, some 2, "Happy", some 90, "t1", "j1" ⟩

/-- A later raw row with the same `(username, date)` key but different fields. -/
def rawC4b : RawRow := ⟨ "alice", some 10, some 5, some 9, some 7, "Tired", some 40, "t2", "j2" ⟩

/-- A raw row in which every parseable field failed to parse. -/
def rawC5 : RawRow := ⟨ "eve", none, none, none, none, "Sad", none, "", "" ⟩

/-- An entry whose date failed to parse (`NaT`). -/
def entryC5 : Entry := ⟨ "eve", none, 0, 0, 0, "Sad", 0, "", "" ⟩

/-- An entry dated day 5 for a run in which today is day 0: a future date. -/
def futureEntryC6 : Entry := ⟨ "alice", some 5, 8, 3, 2, "Happy", 100, "", "" ⟩

/-- An entry dated today (day 0), used to exercise the window. -/
def entryC6w : Entry := ⟨ "alice", some 0, 8, 3, 2, "Happy", 100, "", "" ⟩

/-- Leaderboard test data: alice scored 90 today. -/
def entryC7a : Entry := ⟨ "alice", some 0, 8, 3, 2, "Happy", 90, "", "" ⟩

/-- Leaderboard test data: bob scored 70 today. -/
def entryC7b : Entry := ⟨ "bob", some 0, 7, 5, 4, "Sad", 70, "", "" ⟩

/-- Leaderboard test data: carol scored 80 today. -/
def entryC7c : Entry := ⟨ "carol", some 0, 6, 4, 3, "Tired", 80, "", "" ⟩

/-- A store with three users whose today-scores are 90, 70 and 80. -/
def lbStoreC7 : List Entry := [ entryC7a, entryC7b, entryC7c ]

/-- A stored entry for bob on day 100 (concrete test data). -/
def entryC8 : Entry := ⟨ "bob", some 100, 8, 3, 2, "Happy", 90, "", "" ⟩

/-- A check-in by bob for day 100, conflicting with `entryC8`. -/
def checkinC8 : Checkin := ⟨ "bob", 100, 6, 2, 1, "Happy", 88, "", "" ⟩

/-- A check-in carrying a caller-supplied wellness score (999) that does not
match the score engine value for its numeric fields (8, 3, 0). -/
def badCheckinC9 : Checkin := ⟨ "carol", 50, 8, 3, 0, "Happy", 999, "", "" ⟩

/-- An entry for alice on day 0 (concrete test data). -/
def entryC10a : Entry := ⟨ "alice", some 0, 8, 3, 2, "Happy", 90, "", "" ⟩

/-- An entry for bob on day 0 (concrete test data). -/
def entryC10b : Entry := ⟨ "bob", some 0, 7, 4, 3, "Sad", 80, "", "" ⟩

/-- Stable insertion produces a permutation of consing the element. -/
theorem insertSorted_perm (lt : α → α → Bool) (e : α) (l : List α) :
    (insertSorted lt e l).Perm (e :: l) := by
  induction l with
  | nil => rfl
  | cons x xs ih =>
    by_cases h : lt x e = true
    · rw [insertSorted, if_pos h]
      exact (ih.cons x).trans (List.Perm.swap e x xs)
    · rw [insertSorted, if_neg h]

/-- `sortBy` permutes its input. -/
theorem sortBy_perm (lt : α → α → Bool) (l : List α) : (sortBy lt l).Perm l := by
  induction l with
  | nil => rfl
  | cons x xs ih =>
    rw [sortBy]
    exact (insertSorted_perm lt x (sortBy lt xs)).trans (ih.cons x)

/-- Stable insertion preserves sortedness, given asymmetry and a
transitivity law for the comparison. -/
theorem pairwise_insertSorted (lt : α → α → Bool)
    (hasymm : ∀ a b, lt a b = true → lt b a = false)
    (htrans : ∀ a b c, lt b a = false → lt c b = false → lt c a = false)
    (e : α) (l : List α) (hl : l.Pairwise (ltRel lt)) :
    (insertSorted lt e l).Pairwise (ltRel lt) := by
  induction l with
  | nil => simp [insertSorted, ltRel]
  | cons x xs ih =>
    rcases List.pairwise_cons.mp hl with ⟨hx, hxs⟩
    by_cases h : lt x e = true
    · rw [insertSorted, if_pos h]
      refine List.pairwise_cons.mpr ⟨?_, ih hxs⟩
      intro y hy
      rcases List.mem_cons.mp ((insertSorted_perm lt e xs).mem_iff.mp hy) with rfl | hmem
      · exact hasymm x y h
      · exact hx y hmem
    · rw [insertSorted, if_neg h]
      have hxe : lt x e = false := by
        cases hv : lt x e
        · rfl
        · exact absurd hv h
      refine List.pairwise_cons.mpr ⟨?_, hl⟩
      intro y hy
      rcases List.mem_cons.mp hy with rfl | hmem
      · exact hxe
      · exact htrans e x y hxe (hx y hmem)

/-- `sortBy` sorts, given asymmetry and a transitivity law for the comparison. -/
theorem pairwise_sortBy (lt : α → α → Bool)
    (hasymm : ∀ a b, lt a b = true → lt b a = false)
    (htrans : ∀ a b c, lt b a = false → lt c b = false → lt c a = false)
    (l : List α) : (sortBy lt l).Pairwise (ltRel lt) := by
  induction l with
  | nil => simp [sortBy]
  | cons x xs ih =>
    rw [sortBy]
    exact pairwise_insertSorted lt hasymm htrans x _ ih

/-- The date comparison is asymmetric. -/
theorem dateLt_asymm (a b : Entry) : dateLt a b = true → dateLt b a = false := by
  simp only [dateLt, decide_eq_true_eq, decide_eq_false_iff_not]
  omega

/-- The date comparison satisfies the transitivity law used by sorting. -/
theorem dateLt_htrans (a b c : Entry) :
    dateLt b a = false → dateLt c b = false → dateLt c a = false := by
  simp only [dateLt, decide_eq_false_iff_not]
  omega

/-- The descending score comparison is asymmetric. -/
theorem scoreDesc_asymm (a b : String × ℚ) : scoreDesc a b = true → scoreDesc b a = false := by
  simp only [scoreDesc, decide_eq_true_eq, decide_eq_false_iff_not]
  intro h
  exact lt_asymm h

/-- The descending score comparison satisfies the transitivity law used by
sorting. -/
theorem scoreDesc_htrans (a b c : String × ℚ) :
    scoreDesc b a = false → scoreDesc c b = false → scoreDesc c a = false := by
  simp only [scoreDesc, decide_eq_false_iff_not]
  intro h1 h2 h3
  push_neg at h1 h2
  linarith

/-- `np.clip` agrees with the specification clamp whenever `lo ≤ hi`. -/
theorem npClip_eq_clamp (x lo hi : ℚ) (h : lo ≤ hi) : npClip x lo hi = clamp x lo hi := by
  rw [npClip, clamp]
  rcases le_total x lo with h1 | h1
  · rw [max_eq_right h1, min_eq_left h, min_eq_left (h1.trans h), max_eq_left h1]
  · rcases le_total x hi with h2 | h2
    · rw [max_eq_left h1, min_eq_left h2, max_eq_right h1]
    · rw [max_eq_left h1, min_eq_right h2, max_eq_right h]

/-- The clipped-and-truncated total score lies in `[0, 100]`. -/
theorem intTrunc_clip_range (v : ℚ) :
    0 ≤ intTrunc (npClip v SCORE_MIN SCORE_MAX) ∧ intTrunc (npClip v SCORE_MIN SCORE_MAX) ≤ 100 := by
  have h0 : (0 : ℚ) ≤ npClip v SCORE_MIN SCORE_MAX := by
    rw [npClip, SCORE_MIN, SCORE_MAX]
    exact le_min (le_max_right v 0) (by norm_num)
  have h100 : npClip v SCORE_MIN SCORE_MAX ≤ 100 := by
    rw [npClip, SCORE_MIN, SCORE_MAX]
    exact min_le_right _ _
  rw [intTrunc, if_pos h0]
  constructor
  · exact Int.floor_nonneg.mpr h0
  · calc ⌊npClip v SCORE_MIN SCORE_MAX⌋ ≤ ⌊(100 : ℚ)⌋ := Int.floor_le_floor h100
    _ = 100 := by norm_num

/-- C2: for every numeric input, `compute_wellness_score` equals the
specification formula (sleep `clamp(sleep/8*40, 0, 40)`, stress
`clamp((10-stress)/10*30, 0, 30)`, screen `30` when `screen ≤ 3` else
`max(0, 30-(screen-3)*30/9)`, the sum clamped to `[0,100]` and truncated to
an integer), and the result is an integer in `[0, 100]`. -/
theorem c2_score_formula_and_range :
    ∀ sleep screen stress : ℚ,
      compute_wellness_score sleep screen stress = computeScoreSpec sleep screen stress ∧
      0 ≤ compute_wellness_score sleep screen stress ∧
      compute_wellness_score sleep screen stress ≤ 100 := by
  intro sleep screen stress
  refine ⟨?_, (intTrunc_clip_range _).1, (intTrunc_clip_range _).2⟩
  show intTrunc (npClip (npClip (sleep / 8 * 40) 0 40 + npClip ((10 - stress) / 10 * 30) 0 30 +
      (if screen ≤ 3 then (30 : ℚ) else max 0 (30 - (screen - 3) * (30 / 9)))) SCORE_MIN SCORE_MAX) =
    intTrunc (clamp (clamp (sleep / 8 * 40) 0 40 + clamp ((10 - stress) / 10 * 30) 0 30 +
      (if screen ≤ 3 then (30 : ℚ) else max 0 (30 - (screen - 3) * 30 / 9))) 0 100)
  rw [SCORE_MIN, SCORE_MAX, npClip_eq_clamp _ _ _ (by norm_num : (0 : ℚ) ≤ 40),
    npClip_eq_clamp _ _ _ (by norm_num : (0 : ℚ) ≤ 30),
    npClip_eq_clamp _ _ _ (by norm_num : (0 : ℚ) ≤ 100), mul_div_assoc]

/-- Appending the empty string on the left is the identity. -/
theorem str_empty_append (s : String) : "" ++ s = s := by
  cases s with
  | mk data => rfl

/-- Appending the empty string on the right is the identity. -/
theorem str_append_empty (s : String) : s ++ "" = s := by
  cases s with
  | mk data =>
    show String.mk (data ++ []) = String.mk data
    rw [List.append_nil]

/-- C3: `generate_tip` is the trimmed, order-fixed concatenation of exactly
the advice fragments whose independent gate holds (sleep < 6, screen > 8,
stress ≥ 7, lowercased mood tired/exhausted); in particular
`generate_tip 5 9 8 "Tired"` contains all four fragments in that order. -/
theorem c3_generate_tip_structure :
    (∀ (sleep screen stress : ℚ) (mood : String),
      generate_tip sleep screen stress mood =
        stripStr ((if sleep < 6 then sleepTipText else "") ++
          (if screen > 8 then screenTipText else "") ++
          (if stress ≥ 7 then stressTipText else "") ++
          (if lowerStr mood ∈ [ "tired", "exhausted" ] then napTipText else ""))) ∧
    generate_tip 5 9 8 "Tired" =
      "🛌 Try sleeping 7–8 hours. 📱 Too much screen time! Reduce it. 😣 High stress! Try breathing exercises. 💤 Take a power nap." := by
  constructor
  · intro sleep screen stress mood
    rw [generate_tip]
    by_cases h1 : sleep < 6 <;> by_cases h2 : screen > 8 <;> by_cases h3 : stress ≥ 7 <;>
      by_cases h4 : lowerStr mood ∈ [ "tired", "exhausted" ] <;>
      simp [h1, h2, h3, h4, str_empty_append, str_append_empty, String.append_assoc]
  · decide

/-- C1: whenever the (freshly loaded) store already holds an entry with the
submitted `(username, date)` key, `save_entry` returns false with the
duplicate warning, and the persisted store is exactly the old one — the
existing entry is neither merged nor overwritten (for any injected
post-failure file state, which this path never reaches). -/
theorem c1_conflict_rejected (store : List Entry) (c : Checkin) (persistFail : Bool)
    (failState : StoreState) (h : hasDuplicateKey store c = true) :
    save_entry false persistFail failState store c =
      (false, StoreState.intact store, [ UiMsg.warning conflictText ]) := by
  rw [save_entry, if_neg (by simp : ¬ (false = true)), if_pos h]

/-- C1 witness: a concrete duplicate submission is rejected unchanged. -/
theorem c1_witness :
    save_entry false false StoreState.corrupted [ entryC1 ] checkinC1 =
      (false, StoreState.intact [ entryC1 ], [ UiMsg.warning conflictText ]) :=
  c1_conflict_rejected [ entryC1 ] checkinC1 false StoreState.corrupted (by decide)

/-- C8 counterexample: a persist failure and a duplicate-key conflict both
return the same boolean `false`; the returned outcome of an I/O failure is
not distinguishable from the CONFLICT outcome — only the emitted message
kind (error versus warning) differs. -/
theorem c8_counterexample :
    save_entry false true StoreState.corrupted [] checkinC8 =
      (false, StoreState.corrupted, [ UiMsg.error saveErrorText ]) ∧
    save_entry false false StoreState.corrupted [ entryC8 ] checkinC8 =
      (false, StoreState.intact [ entryC8 ], [ UiMsg.warning conflictText ]) ∧
    (save_entry false true StoreState.corrupted [] checkinC8).1 =
      (save_entry false false StoreState.corrupted [ entryC8 ] checkinC8).1 := by
  refine ⟨ by decide, by decide, by decide ⟩

/-- C8 amended: a lock timeout or a persist failure is caught, emits the
error message (a message distinct from the conflict warning) and returns
false — the same boolean as CONFLICT; no retry happens and no exception
escapes.  A lock timeout leaves the store unchanged (nothing ran); a persist
failure leaves the backing file in whatever state the failed `to_csv` left —
the model guarantees nothing about it, since `to_csv` truncates on open. -/
theorem c8_amended (store : List Entry) (c : Checkin) (failState : StoreState) :
    save_entry true false failState store c =
      (false, StoreState.intact store, [ UiMsg.error saveErrorText ]) ∧
    (hasDuplicateKey store c = false →
      save_entry false true failState store c =
        (false, failState, [ UiMsg.error saveErrorText ])) ∧
    UiMsg.error saveErrorText ≠ UiMsg.warning conflictText := by
  refine ⟨ by rw [save_entry, if_pos rfl], fun h => ?_, by simp ⟩
  rw [save_entry, if_neg (by simp : ¬ (false = true)), if_neg (by simp [h]), if_pos rfl]

/-- C8 amended witness: a concrete persist failure on a conflict-free store,
with a concrete corrupted post-failure file state. -/
theorem c8_amended_witness :
    save_entry false true StoreState.corrupted [] checkinC8 =
      (false, StoreState.corrupted, [ UiMsg.error saveErrorText ]) :=
  (c8_amended [] checkinC8 StoreState.corrupted).2.1 (by decide)

/-- The score engine value at the fixture `(8, 3, 0)`. -/
theorem score_8_3_0 : compute_wellness_score 8 3 0 = 100 := by
  rw [compute_wellness_score]
  norm_num [npClip, intTrunc, SCORE_MIN, SCORE_MAX, min_def, max_def]

/-- C9 counterexample: `save_entry` persists a caller-supplied
`wellness_score` (999) unchanged even though the score engine value for the
entry's numeric fields (8, 3, 0) is different — the store performs no
re-validation of the score. -/
theorem c9_counterexample :
    (save_entry false false StoreState.corrupted [] badCheckinC9).1 = true ∧
    (save_entry false false StoreState.corrupted [] badCheckinC9).2.1 =
      StoreState.intact [ badCheckinC9.toEntry ] ∧
    badCheckinC9.toEntry.wellness_score = 999 ∧
    compute_wellness_score badCheckinC9.sleep_hours badCheckinC9.screen_time
      (badCheckinC9.stress_level : ℚ) ≠ 999 := by
  refine ⟨ by decide, by decide, by decide, ?_ ⟩
  have h : compute_wellness_score badCheckinC9.sleep_hours badCheckinC9.screen_time
      (badCheckinC9.stress_level : ℚ) = 100 := by
    show compute_wellness_score 8 3 (((0 : ℤ) : ℚ)) = 100
    rw [Int.cast_zero]
    exact score_8_3_0
  rw [h]
  decide

/-- C9 amended: `save_entry` persists the score it is given without
recomputation; the check-in form (the only submission path) sets
`wellness_score` to `compute_wellness_score` of the three numeric inputs, so
an entry submitted through the form and accepted is appended with exactly
the score-engine value. -/
theorem c9_amended (username : String) (day : ℤ) (sleep screen : ℚ) (stress : ℤ)
    (mood journal : String) (store : List Entry) (failState : StoreState)
    (h : (save_entry false false failState store
        (checkin_entry username day sleep screen stress mood journal)).1 = true) :
    (save_entry false false failState store
        (checkin_entry username day sleep screen stress mood journal)).2.1
        = StoreState.intact
            (store ++ [ (checkin_entry username day sleep screen stress mood journal).toEntry ]) ∧
    (checkin_entry username day sleep screen stress mood journal).toEntry.wellness_score
        = compute_wellness_score sleep screen (stress : ℚ) := by
  constructor
  · by_cases hd : hasDuplicateKey store (checkin_entry username day sleep screen stress mood journal) = true
    · rw [save_entry, if_neg (by simp : ¬ (false = true)), if_pos hd] at h
      exact absurd h (by simp)
    · rw [save_entry, if_neg (by simp : ¬ (false = true)), if_neg hd,
        if_neg (by simp : ¬ (false = true))]
  · rfl

/-- C9 amended witness: a concrete form submission is appended with the
score-engine value. -/
theorem c9_amended_witness :
    (save_entry false false StoreState.corrupted []
        (checkin_entry "dana" 10 8 3 2 "Happy" "")).2.1
        = StoreState.intact ([] ++ [ (checkin_entry "dana" 10 8 3 2 "Happy" "").toEntry ]) ∧
    (checkin_entry "dana" 10 8 3 2 "Happy" "").toEntry.wellness_score
        = compute_wellness_score 8 3 ((2 : ℤ) : ℚ) :=
  c9_amended "dana" 10 8 3 2 "Happy" "" [] StoreState.corrupted rfl

/-- C10: the per-user restriction of `get_last_n_days` applies only to a
truthy username: `None` and the empty string behave identically (no filter),
so entries of every user are returned for an empty-string username. -/
theorem c10_truthy_username_filter :
    (∀ store : List Entry, userRows store (some "") = store ∧ userRows store none = store) ∧
    (∀ (store : List Entry) (n : ℕ) (today : ℤ),
      get_last_n_days store n (some "") today = get_last_n_days store n none today) ∧
    get_last_n_days [ entryC10a, entryC10b ] 7 (some "") 0 = [ entryC10a, entryC10b ] := by
  refine ⟨ fun store => ⟨ rfl, rfl ⟩, fun store n today => rfl, by decide ⟩

/-- Dedup preserves which keys occur. -/
theorem ddl_any_key (rows : List Entry) : ∀ k : String × Option ℤ,
    (drop_duplicates_keep_last rows).any (fun e => decide (entryKey e = k)) =
      rows.any (fun e => decide (entryKey e = k)) := by
  induction rows with
  | nil => intro k; rfl
  | cons r rest ih =>
    intro k
    rw [drop_duplicates_keep_last]
    by_cases h : (drop_duplicates_keep_last rest).any
        (fun x => decide (entryKey x = entryKey r)) = true
    · rw [if_pos h, List.any_cons, ih k]
      by_cases hk : entryKey r = k
      · have h2 : rest.any (fun e => decide (entryKey e = entryKey r)) = true := by
          rw [← ih (entryKey r)]
          exact h
        rw [← hk]
        simp [h2]
      · simp [hk]
    · rw [if_neg h, List.any_cons, List.any_cons, ih k]

/-- Dedup keeps, for each key, exactly the last row with that key. -/
theorem ddl_filter_key (rows : List Entry) : ∀ k : String × Option ℤ,
    (drop_duplicates_keep_last rows).filter (fun e => decide (entryKey e = k)) =
      ((rows.filter (fun e => decide (entryKey e = k))).getLast?).toList := by
  induction rows with
  | nil => intro k; rfl
  | cons r rest ih =>
    intro k
    rw [drop_duplicates_keep_last]
    by_cases h : (drop_duplicates_keep_last rest).any
        (fun x => decide (entryKey x = entryKey r)) = true
    · rw [if_pos h, ih k, List.filter_cons]
      by_cases hk : entryKey r = k
      · have h2 : rest.any (fun e => decide (entryKey e = entryKey r)) = true := by
          rw [← ddl_any_key rest (entryKey r)]
          exact h
        have h3 : rest.filter (fun e => decide (entryKey e = k)) ≠ [] := by
          rcases List.any_eq_true.mp h2 with ⟨x, hx, hkey⟩
          have hmem : x ∈ rest.filter (fun e => decide (entryKey e = k)) := by
            rw [List.mem_filter]
            refine ⟨hx, ?_⟩
            rw [← hk]
            exact hkey
          intro hnil
          rw [hnil] at hmem
          exact absurd hmem (List.not_mem_nil x)
        rw [hk]
        simp only [decide_eq_true_eq, eq_self_iff_true, if_true]
        rcases hl : rest.filter (fun e => decide (entryKey e = k)) with _ | ⟨b, l2⟩
        · exact absurd hl h3
        · rw [List.getLast?_cons_cons]
      · simp only [decide_eq_true_eq, if_neg hk]
    · have h2 : rest.any (fun e => decide (entryKey e = entryKey r)) = false := by
        rw [← ddl_any_key rest (entryKey r)]
        cases hv : (drop_duplicates_keep_last rest).any (fun x => decide (entryKey x = entryKey r))
        · rfl
        · exact absurd hv h
      rw [if_neg h, List.filter_cons, List.filter_cons]
      by_cases hk : entryKey r = k
      · have h4 : rest.filter (fun e => decide (entryKey e = k)) = [] := by
          rcases hl : rest.filter (fun e => decide (entryKey e = k)) with _ | ⟨b, l2⟩
          · rfl
          · have hbmem : b ∈ rest.filter (fun e => decide (entryKey e = k)) := by
              rw [hl]
              exact List.mem_cons_self b l2
            rcases List.mem_filter.mp hbmem with ⟨hbr, hbk⟩
            have : rest.any (fun e => decide (entryKey e = entryKey r)) = true := by
              refine List.any_eq_true.mpr ⟨b, hbr, ?_⟩
              rw [hk]
              exact hbk
            rw [h2] at this
            exact absurd this (by simp)
        have h5 : (drop_duplicates_keep_last rest).filter
            (fun e => decide (entryKey e = k)) = [] := by
          rw [ih k, h4]
          rfl
        rw [hk]
        simp only [decide_eq_true_eq, eq_self_iff_true, if_true]
        rw [h5, h4]
        rfl
      · simp only [decide_eq_true_eq, if_neg hk]
        exact ih k

/-- Dedup leaves no two rows with the same key. -/
theorem ddl_nodup_keys (rows : List Entry) :
    (drop_duplicates_keep_last rows).Pairwise (fun a b => entryKey a ≠ entryKey b) := by
  induction rows with
  | nil => exact List.Pairwise.nil
  | cons r rest ih =>
    rw [drop_duplicates_keep_last]
    by_cases h : (drop_duplicates_keep_last rest).any
        (fun x => decide (entryKey x = entryKey r)) = true
    · rw [if_pos h]
      exact ih
    · rw [if_neg h]
      refine List.pairwise_cons.mpr ⟨?_, ih⟩
      intro b hb hkey
      apply h
      refine List.any_eq_true.mpr ⟨b, hb, ?_⟩
      simp [hkey]

/-- C4: `load_data` deduplicates parsed rows by `(username, date)` keeping,
for each key, exactly the last row with that key in file order; the loaded
store never holds two rows with the same key, and a file with two same-key
rows loads to exactly the later row. -/
theorem c4_load_dedup_keeps_last :
    (∀ (raws : List RawRow) (k : String × Option ℤ),
      (drop_duplicates_keep_last (raws.map parse_row)).filter (fun e => decide (entryKey e = k)) =
        (((raws.map parse_row).filter (fun e => decide (entryKey e = k))).getLast?).toList) ∧
    (∀ raws : List RawRow,
      (drop_duplicates_keep_last (raws.map parse_row)).Pairwise
        (fun a b => entryKey a ≠ entryKey b)) ∧
    (∀ raws : List RawRow,
      load_data (ReadOutcome.ok raws) =
        LoadResult.store (drop_duplicates_keep_last (raws.map parse_row))) ∧
    load_data (ReadOutcome.ok [ rawC4a, rawC4b ]) = LoadResult.store [ parse_row rawC4b ] := by
  refine ⟨ fun raws k => ddl_filter_key (raws.map parse_row) k,
    fun raws => ddl_nodup_keys (raws.map parse_row), fun raws => rfl, by decide ⟩

/-- C5: the claim fails on the code itself.  The `try` block covers only
`pd.read_csv` (lines 33-40); lines 51-54 access the four numeric columns
unguarded — contradicting the `if col in df.columns` guards right above at
lines 47-49 — so a readable CSV that lacks one of those columns (for example
a file whose whole content is `hello world`) makes `load_data` raise an
uncaught `KeyError` instead of returning a store.  The recovery the claim
describes does hold for the other corruption modes: an unreadable file
loads as the empty store, an unparseable date stays `NaT` and is excluded
from the date-window query and from both leaderboard windows, and every
unparseable numeric field coerces to 0. -/
theorem c5_load_raises_on_missing_numeric_column :
    load_data ReadOutcome.missingNumericColumn = LoadResult.raised ∧
    load_data ReadOutcome.unreadable = LoadResult.store [] ∧
    parse_row rawC5 = entryC5 ∧
    entryC5 ∉ windowRows [ entryC5 ] 7 none 0 ∧
    inWindow Window.Daily 0 entryC5 = false ∧
    inWindow Window.Weekly 0 entryC5 = false := by
  refine ⟨ rfl, rfl, by decide, by decide, rfl, rfl ⟩

/-- C6 counterexample: with today = 0, an entry dated day 5 — after today —
is returned by `get_last_n_days`, although the claim says entries dated
after today are excluded: the code has no upper date bound. -/
theorem c6_counterexample :
    get_last_n_days [ futureEntryC6 ] 7 (some "alice") 0 = [ futureEntryC6 ] ∧
    futureEntryC6.date = some 5 ∧ (0 : ℤ) < 5 := by
  refine ⟨ by decide, rfl, by decide ⟩

/-- On a list sorted for `R`, every element that the `drop` discards is
`R`-below every element that the `drop` keeps. -/
theorem sorted_drop_dominates {R : α → α → Prop} (l : List α) (k : ℕ) (hl : l.Pairwise R)
    (e : α) (he : e ∈ l) (hnot : e ∉ l.drop k) : ∀ e2 ∈ l.drop k, R e e2 := by
  intro e2 he2
  have hsplit := List.take_append_drop k l
  rw [← hsplit] at hl
  rcases List.pairwise_append.mp hl with ⟨_, _, hcross⟩
  have hetake : e ∈ l.take k := by
    rw [← hsplit] at he
    rcases List.mem_append.mp he with h | h
    · exact h
    · exact absurd h hnot
  exact hcross e hetake e2 he2

/-- C6 amended: `get_last_n_days` keeps the entries (restricted to the user
only when the username is truthy) whose date is on or after `today-(n-1)` —
with no upper bound, so future-dated entries are included — sorted ascending
by date and truncated to the `min n (number of rows passing the filter)`
most recent rows of that ordering: every in-window row that is not returned
is dated no later than every returned row, and when at most `n` rows pass
the filter the result is exactly the filtered rows. -/
theorem c6_amended (store : List Entry) (n : ℕ) (username : Option String) (today : ℤ) :
    (get_last_n_days store n username today).Sublist
        (sortBy dateLt (windowRows store n username today)) ∧
    (sortBy dateLt (windowRows store n username today)).Perm
        (windowRows store n username today) ∧
    (get_last_n_days store n username today).Pairwise
        (fun a b => a.date.getD 0 ≤ b.date.getD 0) ∧
    (get_last_n_days store n username today).length =
        min n (windowRows store n username today).length ∧
    ((windowRows store n username today).length ≤ n →
      (get_last_n_days store n username today).Perm (windowRows store n username today)) ∧
    (∀ e ∈ windowRows store n username today, e ∉ get_last_n_days store n username today →
      ∀ e2 ∈ get_last_n_days store n username today, e.date.getD 0 ≤ e2.date.getD 0) := by
  have e1 : get_last_n_days store n username today =
      (sortBy dateLt (windowRows store n username today)).drop
        ((sortBy dateLt (windowRows store n username today)).length - n) := rfl
  have hperm := sortBy_perm dateLt (windowRows store n username today)
  have hlen2 : (sortBy dateLt (windowRows store n username today)).length =
      (windowRows store n username today).length := hperm.length_eq
  have hsorted := pairwise_sortBy dateLt dateLt_asymm dateLt_htrans
    (windowRows store n username today)
  have hsorted2 : (sortBy dateLt (windowRows store n username today)).Pairwise
      (fun a b => a.date.getD 0 ≤ b.date.getD 0) := by
    refine hsorted.imp ?_
    intro a b hab
    rw [ltRel, dateLt, decide_eq_false_iff_not] at hab
    exact le_of_not_lt hab
  refine ⟨ ?_, hperm, ?_, ?_, ?_, ?_ ⟩
  · rw [e1]
    exact List.drop_sublist _ _
  · rw [e1]
    exact List.Pairwise.sublist (List.drop_sublist _ _) hsorted2
  · rw [e1, List.length_drop, hlen2]
    omega
  · intro hlen
    have hz : (sortBy dateLt (windowRows store n username today)).length - n = 0 := by omega
    rw [e1, hz, List.drop_zero]
    exact hperm
  · intro e hewin henot e2 he2
    have heL : e ∈ sortBy dateLt (windowRows store n username today) :=
      hperm.mem_iff.mpr hewin
    rw [e1] at henot he2
    exact sorted_drop_dominates _ _ hsorted2 e heL henot e2 he2

/-- C6 amended witness: a one-entry store dated today is returned whole, and
on a two-entry store truncated to one row the dropped in-window entry is
dated no later than the kept one. -/
theorem c6_amended_witness :
    (get_last_n_days [ entryC6w ] 7 (some "alice") 0).Perm
        (windowRows [ entryC6w ] 7 (some "alice") 0) ∧
    entryC6w.date.getD 0 ≤ futureEntryC6.date.getD 0 :=
  ⟨ (c6_amended [ entryC6w ] 7 (some "alice") 0).2.2.2.2.1 (by decide),
    (c6_amended [ entryC6w, futureEntryC6 ] 1 none 0).2.2.2.2.2 entryC6w (by decide)
      (by decide) futureEntryC6 (by decide) ⟩

/-- Attached rank positions, starting from position `n`, are `n+1, n+2, ...`. -/
theorem enumFrom_ranks (l : List (String × ℚ)) : ∀ n : ℕ,
    ((l.enumFrom n).map (fun ip => (ip.2.1, ip.2.2, ip.1 + 1))).map (fun t => t.2.2) =
      List.range' (n + 1) l.length := by
  induction l with
  | nil => intro n; rfl
  | cons x xs ih =>
    intro n
    rw [List.enumFrom_cons, List.map_cons, List.map_cons, ih (n + 1), List.length_cons,
      List.range'_succ]

/-- The leaderboard attaches ranks `1..k` in order. -/
theorem lb_ranks (store : List Entry) (w : Window) (today : ℤ) :
    (leaderboard store w today).map (fun t => t.2.2) =
      List.range' 1 (leaderboardScored store w today).length := by
  rw [leaderboard]
  simpa using enumFrom_ranks (leaderboardScored store w today) 0

/-- Dropping the rank recovers the sorted `(username, mean)` rows. -/
theorem lb_proj (store : List Entry) (w : Window) (today : ℤ) :
    (leaderboard store w today).map (fun t => (t.1, t.2.1)) =
      leaderboardScored store w today := by
  rw [leaderboard, List.map_map]
  have hfun : ((fun t : String × ℚ × ℕ => (t.1, t.2.1)) ∘
      (fun ip : ℕ × String × ℚ => (ip.2.1, ip.2.2, ip.1 + 1))) =
      (fun ip : ℕ × String × ℚ => ip.2) := by
    funext ip
    rfl
  rw [hfun]
  exact List.enum_map_snd (leaderboardScored store w today)

/-- The leaderboard test store survives the Daily window filter whole. -/
theorem lbFilterC7 : lbStoreC7.filter (inWindow Window.Daily 0) = lbStoreC7 := by decide

/-- Sorted distinct usernames of the leaderboard test store. -/
theorem lbUsersC7 :
    sortBy strLt ((lbStoreC7.map (fun e => e.username)).dedup) =
      [ "alice", "bob", "carol" ] := by decide

/-- Mean score of alice in the leaderboard test store. -/
theorem meanC7a : meanScore lbStoreC7 "alice" = 90 := by
  have hf : lbStoreC7.filter (fun e => decide (e.username = "alice")) = [ entryC7a ] := by decide
  rw [meanScore, hf]
  norm_num [entryC7a]

/-- Mean score of bob in the leaderboard test store. -/
theorem meanC7b : meanScore lbStoreC7 "bob" = 70 := by
  have hf : lbStoreC7.filter (fun e => decide (e.username = "bob")) = [ entryC7b ] := by decide
  rw [meanScore, hf]
  norm_num [entryC7b]

/-- Mean score of carol in the leaderboard test store. -/
theorem meanC7c : meanScore lbStoreC7 "carol" = 80 := by
  have hf : lbStoreC7.filter (fun e => decide (e.username = "carol")) = [ entryC7c ] := by decide
  rw [meanScore, hf]
  norm_num [entryC7c]

/-- Group means of the leaderboard test store. -/
theorem groupMeansC7 :
    groupMeans lbStoreC7 = [ ("alice", (90 : ℚ)), ("bob", 70), ("carol", 80) ] := by
  rw [groupMeans, lbUsersC7, List.map_cons, List.map_cons, List.map_cons, List.map_nil,
    meanC7a, meanC7b, meanC7c]

/-- Sorted leaderboard rows of the test store. -/
theorem scoredC7 :
    leaderboardScored lbStoreC7 Window.Daily 0 =
      [ ("alice", (90 : ℚ)), ("carol", 80), ("bob", 70) ] := by
  rw [leaderboardScored, lbFilterC7, groupMeansC7]
  norm_num [sortBy, insertSorted, scoreDesc]

/-- The leaderboard groups the entries dated in the window by username,
averages their wellness scores (the rows are a permutation of the per-user
group means over the windowed rows), sorts descending by mean, and attaches
ranks `1..k`; on three users with today-scores 90, 70, 80 the Daily board is
alice 90 rank 1, carol 80 rank 2, bob 70 rank 3.  The tie order of pandas
`sort_values` under its default quicksort kind is implementation-defined and
is deliberately not asserted here. -/
theorem leaderboard_window_means_ranks :
    (∀ (store : List Entry) (w : Window) (today : ℤ),
      (leaderboardScored store w today).Perm
        (groupMeans (store.filter (inWindow w today)))) ∧
    (∀ (store : List Entry) (w : Window) (today : ℤ),
      (leaderboardScored store w today).Pairwise (fun a b => b.2 ≤ a.2)) ∧
    (∀ (store : List Entry) (w : Window) (today : ℤ),
      (leaderboard store w today).map (fun t => (t.1, t.2.1)) =
          leaderboardScored store w today ∧
      (leaderboard store w today).map (fun t => t.2.2) =
          List.range' 1 (leaderboardScored store w today).length) ∧
    leaderboard lbStoreC7 Window.Daily 0 =
      [ ("alice", 90, 1), ("carol", 80, 2), ("bob", 70, 3) ] := by
  refine ⟨ fun store w today => ?_, fun store w today => ?_,
    fun store w today => ⟨ lb_proj store w today, lb_ranks store w today ⟩, ?_ ⟩
  · rw [leaderboardScored]
    exact sortBy_perm scoreDesc (groupMeans (store.filter (inWindow w today)))
  · have hs := pairwise_sortBy scoreDesc scoreDesc_asymm scoreDesc_htrans
      (groupMeans (store.filter (inWindow w today)))
    rw [leaderboardScored]
    refine hs.imp ?_
    intro a b hab
    rw [ltRel, scoreDesc, decide_eq_false_iff_not] at hab
    exact le_of_not_lt hab
  · rw [leaderboard, scoredC7]
    decide

end DigitalWellness
